import Mathlib

/-!
Verification of the Parthenon-Configurator core against its specification.

The development shallowly embeds the configuration codec
(`ConfigManager.load_config` / `ConfigManager.save_config` in
`main-application.py`), the per-section validators
(`host_config.py`, `monitoring_config.py`, `security_config.py`,
`sections.py`) and the wizard field model (`new_main.py`).

Strings are modelled as lists of characters (`Str`), Python string
methods (`strip`, `lower`, `isdigit`, `split`, `in`, `int()`, `float()`)
as executable functions on `Str`.  Python dictionaries are modelled as
insertion-ordered association lists with update-in-place assignment
(`dictSet`), matching CPython semantics.  External library calls
(`re.match`, `os.path.dirname`, `os.path.exists`) are abstracted as
oracle parameters since their behaviour is outside this repository.
`float()` is modelled on plain decimal literals (sign, digits, optional
fractional part), the only forms the theorems below depend on.
-/

namespace Parthenon

/-- Character lists standing in for Python strings. -/
abbrev Str := List Char

/-- Convert a Lean string literal to the `Str` model. -/
def lit (s : String) : Str := s.toList

/-- The whitespace characters stripped by Python `str.strip()`. -/
def isPyWs (c : Char) : Bool :=
  c = ' ' ∨ c = '\t' ∨ c = '\n' ∨ c = '\r' ∨ c = '\x0b' ∨ c = '\x0c'

/-- Python `str.strip()`: drop leading and trailing whitespace. -/
def pyStrip (l : Str) : Str :=
  ((l.dropWhile isPyWs).reverse.dropWhile isPyWs).reverse

/-- Python `str.lower()` (ASCII range, the only one exercised here). -/
def pyLower (l : Str) : Str := l.map Char.toLower

/-- Python `str.isdigit()` restricted to ASCII digits: nonempty and all digits. -/
def pyIsDigit (l : Str) : Bool := !l.isEmpty && l.all Char.isDigit

/-- Numeric value of a digit string (the value `int()` gives on digit input). -/
def digitsToNat (l : Str) : Nat :=
  l.foldl (fun n c => 10 * n + (c.toNat - 48)) 0

/-- Python `int(s)`: optional surrounding whitespace and sign, then digits;
`none` models the `ValueError` raised on any other input. -/
def pyInt (l : Str) : Option Int :=
  match pyStrip l with
  | '+' :: ds => if pyIsDigit ds then some (digitsToNat ds) else none
  | '-' :: ds => if pyIsDigit ds then some (-(digitsToNat ds : Int)) else none
  | ds => if pyIsDigit ds then some (digitsToNat ds) else none

/-- An exact decimal number `mant / 10 ^ scale`, the value of a decimal
literal accepted by Python `float()`. -/
structure Dec10 where
  mant : Int
  scale : Nat
deriving DecidableEq

/-- Comparison `x < y` of a decimal against an integer bound. -/
def Dec10.ltInt (x : Dec10) (y : Int) : Bool := x.mant < y * 10 ^ x.scale

/-- Comparison `x > y` of a decimal against an integer bound. -/
def Dec10.gtInt (x : Dec10) (y : Int) : Bool := y * 10 ^ x.scale < x.mant

/-- Magnitude part of a decimal literal: `digits`, `digits.digits` or `.digits`. -/
def decMagnitude (ds : Str) : Option Dec10 :=
  let ip := ds.takeWhile Char.isDigit
  let rest := ds.dropWhile Char.isDigit
  match rest with
  | [] => if ip.isEmpty then none else some ⟨digitsToNat ip, 0⟩
  | '.' :: fp =>
      if fp.all Char.isDigit && !(ip.isEmpty && fp.isEmpty) then
        some ⟨digitsToNat ip * 10 ^ fp.length + digitsToNat fp, fp.length⟩
      else none
  | _ => none

/-- Python `float(s)` on plain decimal literals; `none` models `ValueError`. -/
def pyFloat (l : Str) : Option Dec10 :=
  match pyStrip l with
  | '+' :: ds => decMagnitude ds
  | '-' :: ds => (decMagnitude ds).map (fun d => ⟨-d.mant, d.scale⟩)
  | ds => decMagnitude ds

/-- Python substring containment `pat in s`. -/
def containsSub (pat : Str) : Str → Bool
  | [] => pat.isEmpty
  | c :: rest => pat.isPrefixOf (c :: rest) || containsSub pat rest

/-- Decimal rendering of a natural number, as Python `str()` produces. -/
def natToStr (n : Nat) : Str := Nat.toDigits 10 n

/-- Comma-space join, as `", ".join(xs)` produces. -/
def joinComma (xs : List Str) : Str := List.intercalate (lit ", ") xs

/-! ## Python dictionaries as insertion-ordered association lists -/

/-- CPython `d[k] = v`: replace the value in place when the key is present
(keeping its position), otherwise append a new entry. -/
def dictSet {α : Type} : List (Str × α) → Str → α → List (Str × α)
  | [], k, v => [(k, v)]
  | (k', v') :: rest, k, v =>
      if k' = k then (k', v) :: rest else (k', v') :: dictSet rest k v

/-- Dictionary lookup `d[k]` (as an `Option`). -/
def dictGet {α : Type} : List (Str × α) → Str → Option α
  | [], _ => none
  | (k', v') :: rest, k => if k' = k then some v' else dictGet rest k

/-- Modify the value stored at `k` in place (identity when `k` is absent). -/
def dictModify {α : Type} : List (Str × α) → Str → (α → α) → List (Str × α)
  | [], _, _ => []
  | (k', v') :: rest, k, f =>
      if k' = k then (k', f v') :: rest else (k', v') :: dictModify rest k f

/-! ## Config Document Codec (`ConfigManager` in `main-application.py`)

A Config Document maps section names to insertion-ordered field maps.
Files are modelled at the line level: `save_config` produces the list of
lines it writes (each written chunk splits on the `\n` characters it
contains), and `load_config` folds over the lines of the file, exactly
mirroring `for line in file`. -/

/-- A Config Document: section name to (field key to string value). -/
abbrev Doc := List (Str × List (Str × Str))

/-- First-occurrence split on `=`, as `line.split('=', 1)` (for lines
containing `=`): everything before the first `=`, everything after it. -/
def splitFirstEq (l : Str) : Str × Str :=
  (l.takeWhile (· ≠ '='), (l.dropWhile (· ≠ '=')).tail)

/-- Text after the last `:`, as `line.split(':')[-1]` (the whole line when
there is no `:`). -/
def afterLastColon (l : Str) : Str :=
  (l.reverse.takeWhile (· ≠ ':')).reverse

/-- One iteration of the `load_config` loop: strip the line; a `#` line
containing `Section` opens (and resets) a section; otherwise a line with
`=` adds a trimmed key/value pair to the current section, but only under
the `if current_section:` truthiness guard — false both for `None` and
for the empty string, so pairs after a `# Section:` header naming the
empty section are skipped. -/
def processLine (st : Doc × Option Str) (line : Str) : Doc × Option Str :=
  let l := pyStrip line
  if l.head? = some '#' then
    if containsSub (lit "Section") l then
      let name := pyStrip (afterLastColon l)
      (dictSet st.1 name [], some name)
    else st
  else if '=' ∈ l then
    match st.2 with
    | some sec =>
        if sec = [] then st
        else
          let kv := splitFirstEq l
          (dictModify st.1 sec (fun kvs => dictSet kvs (pyStrip kv.1) (pyStrip kv.2)),
           st.2)
    | none => st
  else st

/-- `ConfigManager.load_config`, over the lines of the file. -/
def load_config (lines : List Str) : Doc :=
  (lines.foldl processLine ([], none)).1

/-- The 92-character decorative separator line written around each header. -/
def hashLine : Str := List.replicate 92 '#'

/-- The section header comment line `# Section: <name>`. -/
def headerLine (name : Str) : Str := lit "# Section: " ++ name

/-- A `KEY=value` line. -/
def kvLine (k v : Str) : Str := k ++ '=' :: v

/-- The lines `save_config` writes for one section: decorated header block,
a blank line, one `KEY=value` line per field, and a blank separator. -/
def sectionLines (name : Str) (kvs : List (Str × Str)) : List Str :=
  [hashLine, headerLine name, hashLine, []] ++
    kvs.map (fun p => kvLine p.1 p.2) ++ [[]]

/-- `ConfigManager.save_config`, as the list of lines written to the file. -/
def save_config (doc : Doc) : List Str :=
  doc.flatMap (fun s => sectionLines s.1 s.2)

/-- A string unchanged by `strip()` and free of newlines: the shape a
decoded value always has. -/
def cleanVal (v : Str) : Prop := pyStrip v = v ∧ '\n' ∉ v

/-- A key that survives the codec: trimmed, no `=` (the separator), no
newline, and not starting with `#` (which would turn its line into a
comment). -/
def cleanKey (k : Str) : Prop :=
  pyStrip k = k ∧ '=' ∉ k ∧ '\n' ∉ k ∧ k.head? ≠ some '#'

/-- A section name that survives the codec: nonempty (decode's
`if current_section:` truthiness guard treats the empty name as no open
section and skips its pairs), trimmed, no `:` (decode keeps only the
text after the last colon), no newline. -/
def cleanName (n : Str) : Prop :=
  n ≠ [] ∧ pyStrip n = n ∧ ':' ∉ n ∧ '\n' ∉ n

instance (v : Str) : Decidable (cleanVal v) := by unfold cleanVal; infer_instance

instance (k : Str) : Decidable (cleanKey k) := by unfold cleanKey; infer_instance

instance (n : Str) : Decidable (cleanName n) := by unfold cleanName; infer_instance

/-- Is the stripped line a section-header comment (`#`-line containing
`Section`)?  These are the lines that reset the current section. -/
def isHeaderL (line : Str) : Bool :=
  (pyStrip line).head? = some '#' && containsSub (lit "Section") (pyStrip line)

/-- The key/value pair a non-header line contributes, if any. -/
def lineKV (line : Str) : Option (Str × Str) :=
  let l := pyStrip line
  if l.head? = some '#' then none
  else if '=' ∈ l then
    some (pyStrip (splitFirstEq l).1, pyStrip (splitFirstEq l).2)
  else none

/-- Accumulate the key/value pairs of a run of non-header lines. -/
def collectKVs (acc : List (Str × Str)) (q : List Str) : List (Str × Str) :=
  q.foldl
    (fun a line =>
      match lineKV line with
      | some p => dictSet a p.1 p.2
      | none => a)
    acc

/-! ## Host section validator (`BroadseaHostSection.validate`, `host_config.py`)

The section holds four line-edit fields; `validate` reads `HOST_PORT` and
`HOST_PROTOCOL` from them. -/

/-- Current texts of the four fields of the Host section. -/
structure HostValues where
  hostName : Str
  hostPort : Str
  hostProtocol : Str
  hostContextPath : Str

/-- Field defaults set in `BroadseaHostSection.setup_fields`. -/
def hostDefaults : HostValues :=
  ⟨lit "localhost", lit "8080", lit "http", lit "/"⟩

/-- `BroadseaHostSection.validate`. -/
def hostValidate (v : HostValues) : List Str :=
  (if !pyIsDigit v.hostPort then [lit "Port must be a number"]
   else if ¬(0 ≤ (digitsToNat v.hostPort : Int) ∧
              (digitsToNat v.hostPort : Int) ≤ 65535) then
     [lit "Port must be between 0 and 65535"]
   else []) ++
  (if pyLower v.hostProtocol ∉ [lit "http", lit "https"] then
     [lit "Protocol must be either \x27http\x27 or \x27https\x27"]
   else [])

/-! ## Monitoring section validator (`MonitoringSection.validate`,
`monitoring_config.py`) -/

/-- Current texts of the eleven fields of the Monitoring section. -/
structure MonValues where
  enabled : Str
  port : Str
  path : Str
  interval : Str
  retentionDays : Str
  logLevel : Str
  alertEmail : Str
  alertSlack : Str
  diskThreshold : Str
  memoryThreshold : Str
  cpuThreshold : Str

/-- Field defaults set in `MonitoringSection.setup_fields`. -/
def monDefaults : MonValues :=
  ⟨lit "true", lit "9090", lit "/metrics", lit "15", lit "30", lit "info",
   [], [], lit "90", lit "85", lit "80"⟩

/-- The `numeric_fields` table of `MonitoringSection.validate`:
field key, lower bound, upper bound, unit. -/
def monNumericFields : List (Str × Nat × Nat × Str) :=
  [(lit "MONITORING_INTERVAL", 1, 3600, lit "seconds"),
   (lit "MONITORING_RETENTION_DAYS", 1, 365, lit "days"),
   (lit "MONITORING_DISK_THRESHOLD", 0, 100, lit "percent"),
   (lit "MONITORING_MEMORY_THRESHOLD", 0, 100, lit "percent"),
   (lit "MONITORING_CPU_THRESHOLD", 0, 100, lit "percent")]

/-- `self.fields[name].text()` for the Monitoring section. -/
def getMonField (v : MonValues) (name : Str) : Str :=
  if name = lit "MONITORING_ENABLED" then v.enabled
  else if name = lit "MONITORING_PORT" then v.port
  else if name = lit "MONITORING_PATH" then v.path
  else if name = lit "MONITORING_INTERVAL" then v.interval
  else if name = lit "MONITORING_RETENTION_DAYS" then v.retentionDays
  else if name = lit "MONITORING_LOG_LEVEL" then v.logLevel
  else if name = lit "MONITORING_ALERT_EMAIL" then v.alertEmail
  else if name = lit "MONITORING_ALERT_SLACK" then v.alertSlack
  else if name = lit "MONITORING_DISK_THRESHOLD" then v.diskThreshold
  else if name = lit "MONITORING_MEMORY_THRESHOLD" then v.memoryThreshold
  else if name = lit "MONITORING_CPU_THRESHOLD" then v.cpuThreshold
  else []

/-- Overwrite the text of the named Monitoring field (entering a value in
the corresponding line edit). -/
def setMonField (v : MonValues) (name : Str) (s : Str) : MonValues :=
  if name = lit "MONITORING_ENABLED" then { v with enabled := s }
  else if name = lit "MONITORING_PORT" then { v with port := s }
  else if name = lit "MONITORING_PATH" then { v with path := s }
  else if name = lit "MONITORING_INTERVAL" then { v with interval := s }
  else if name = lit "MONITORING_RETENTION_DAYS" then { v with retentionDays := s }
  else if name = lit "MONITORING_LOG_LEVEL" then { v with logLevel := s }
  else if name = lit "MONITORING_ALERT_EMAIL" then { v with alertEmail := s }
  else if name = lit "MONITORING_ALERT_SLACK" then { v with alertSlack := s }
  else if name = lit "MONITORING_DISK_THRESHOLD" then { v with diskThreshold := s }
  else if name = lit "MONITORING_MEMORY_THRESHOLD" then { v with memoryThreshold := s }
  else if name = lit "MONITORING_CPU_THRESHOLD" then { v with cpuThreshold := s }
  else v

/-- Message `f"{field} must be a number"`. -/
def numberIssueMsg (name : Str) : Str := name ++ lit " must be a number"

/-- Message `f"{field} must be between {min_val} and {max_val} {unit}"`. -/
def rangeIssueMsg (name : Str) (lo hi : Nat) (unit : Str) : Str :=
  name ++ lit " must be between " ++ natToStr lo ++ lit " and " ++
    natToStr hi ++ lit " " ++ unit

/-- One iteration of the `numeric_fields` loop in
`MonitoringSection.validate`. -/
def numericCheck (name : Str) (lo hi : Nat) (unit : Str) (value : Str) :
    List Str :=
  if !pyIsDigit value then [numberIssueMsg name]
  else if ¬(lo ≤ digitsToNat value ∧ digitsToNat value ≤ hi) then
    [rangeIssueMsg name lo hi unit]
  else []

/-- The boolean check on `MONITORING_ENABLED`. -/
def monEnabledCheck (v : MonValues) : List Str :=
  if pyLower v.enabled ∉ [lit "true", lit "false"] then
    [lit "MONITORING_ENABLED must be either \x27true\x27 or \x27false\x27"]
  else []

/-- The port check on `MONITORING_PORT`. -/
def monPortCheck (v : MonValues) : List Str :=
  if !pyIsDigit v.port then [lit "MONITORING_PORT must be a number"]
  else if ¬(0 ≤ (digitsToNat v.port : Int) ∧
             (digitsToNat v.port : Int) ≤ 65535) then
    [lit "MONITORING_PORT must be between 0 and 65535"]
  else []

/-- The `numeric_fields` loop. -/
def monNumericChecks (v : MonValues) : List Str :=
  monNumericFields.flatMap
    (fun e => numericCheck e.1 e.2.1 e.2.2.1 e.2.2.2 (getMonField v e.1))

/-- The log-level membership check. -/
def monLogLevelCheck (v : MonValues) : List Str :=
  if pyLower v.logLevel ∉
      [lit "debug", lit "info", lit "warning", lit "error", lit "critical"] then
    [lit "MONITORING_LOG_LEVEL must be one of: " ++
      joinComma [lit "debug", lit "info", lit "warning", lit "error", lit "critical"]]
  else []

/-- The alert-email check (only on a nonempty value). -/
def monEmailCheck (v : MonValues) : List Str :=
  if v.alertEmail ≠ [] ∧ '@' ∉ v.alertEmail then
    [lit "MONITORING_ALERT_EMAIL must be a valid email address"]
  else []

/-- The Slack-webhook check (only on a nonempty value). -/
def monSlackCheck (v : MonValues) : List Str :=
  if v.alertSlack ≠ [] ∧
      !((lit "https://hooks.slack.com/").isPrefixOf v.alertSlack ||
        v.alertSlack.isEmpty) then
    [lit "MONITORING_ALERT_SLACK must be a valid Slack webhook URL"]
  else []

/-- `MonitoringSection.validate` (`monitoring_config.py`). -/
def monitoringValidate (v : MonValues) : List Str :=
  monEnabledCheck v ++ monPortCheck v ++ monNumericChecks v ++
    monLogLevelCheck v ++ monEmailCheck v ++ monSlackCheck v

/-! ## Security section validator (`SecuritySection.validate`,
`security_config.py`) -/

/-- Current texts of the thirteen fields of the Security section. -/
structure SecValues where
  enabled : Str
  authProvider : Str
  dbHost : Str
  dbPort : Str
  dbName : Str
  dbUser : Str
  dbPass : Str
  oauthClientId : Str
  oauthClientSecret : Str
  oauthCallbackUrl : Str
  sslEnabled : Str
  sslKeystore : Str
  sslKeystorePassword : Str

/-- Field defaults set in `SecuritySection.setup_fields`. -/
def secDefaults : SecValues :=
  ⟨lit "false", lit "db", lit "postgres", lit "5432", lit "security",
   lit "postgres", lit "postgres", [], [], [], lit "false", [], []⟩

/-- `SecuritySection.validate`. -/
def securityValidate (v : SecValues) : List Str :=
  (if !pyIsDigit v.dbPort then [lit "SECURITY_DB_PORT must be a number"]
   else if ¬(0 ≤ (digitsToNat v.dbPort : Int) ∧
              (digitsToNat v.dbPort : Int) ≤ 65535) then
     [lit "SECURITY_DB_PORT must be between 0 and 65535"]
   else []) ++
  ([(lit "SECURITY_ENABLED", v.enabled),
    (lit "SECURITY_SSL_ENABLED", v.sslEnabled)].flatMap
    (fun p =>
      if pyLower p.2 ∉ [lit "true", lit "false"] then
        [p.1 ++ lit " must be either \x27true\x27 or \x27false\x27"]
      else [])) ++
  (if pyLower v.authProvider ∉ [lit "db", lit "oauth", lit "ldap"] then
     [lit "SECURITY_AUTH_PROVIDER must be one of: db, oauth, ldap"]
   else []) ++
  (if pyLower v.authProvider = lit "oauth" then
     [(lit "SECURITY_OAUTH_CLIENT_ID", v.oauthClientId),
      (lit "SECURITY_OAUTH_CLIENT_SECRET", v.oauthClientSecret),
      (lit "SECURITY_OAUTH_CALLBACK_URL", v.oauthCallbackUrl)].flatMap
       (fun p =>
         if pyStrip p.2 = [] then [p.1 ++ lit " is required when using OAuth"]
         else [])
   else []) ++
  (if pyLower v.sslEnabled = lit "true" then
     [(lit "SECURITY_SSL_KEYSTORE", v.sslKeystore),
      (lit "SECURITY_SSL_KEYSTORE_PASSWORD", v.sslKeystorePassword)].flatMap
       (fun p =>
         if pyStrip p.2 = [] then
           [p.1 ++ lit " is required when SSL is enabled"]
         else [])
   else [])

/-! ## WebAPI widget validator (`WebAPIConfigWidget.validate`, `sections.py`)

Field metadata is the `ConfigField` dataclass of the WebAPI block of
`sections.py`; values are the current widget texts, a function of the
field key.  `re.match`, `os.path.dirname` and `os.path.exists` are
oracle parameters. -/

/-- External library calls used by the widget validators. -/
structure Ext where
  reMatch : Str → Str → Bool
  dirname : Str → Str
  pathExists : Str → Bool

/-- Trivial oracles: every pattern matches, every directory exists. -/
def extTrivial : Ext := ⟨fun _ _ => true, fun _ => [], fun _ => true⟩

/-- The `ConfigField` dataclass of the WebAPI block of `sections.py`
(fields relevant to `validate`). -/
structure WField where
  key : Str
  options : List Str := []
  isFilePath : Bool := false
  isSecret : Bool := false
  validationPattern : Option Str := none

/-- The WebAPI fields in widget order (`WebAPIConfigWidget.setup_ui`
inserts the database, logging, caching and additional groups in turn). -/
def webapiFields : List WField :=
  [{ key := lit "WEBAPI_DATASOURCE_URL",
     validationPattern :=
       some (lit "^jdbc:(postgresql|mysql|sqlserver|oracle):\\/\\/[\\w\\-\\.]+:\\d+\\/[\\w\\-]+") },
   { key := lit "WEBAPI_DATASOURCE_USERNAME" },
   { key := lit "WEBAPI_DATASOURCE_PASSWORD_FILE", isFilePath := true,
     isSecret := true },
   { key := lit "WEBAPI_DATASOURCE_OHDSI_SCHEMA" },
   { key := lit "WEBAPI_LOGGING_LEVEL_ROOT",
     options := [lit "trace", lit "debug", lit "info", lit "warn", lit "error"] },
   { key := lit "WEBAPI_LOGGING_LEVEL_ORG_OHDSI",
     options := [lit "trace", lit "debug", lit "info", lit "warn", lit "error"] },
   { key := lit "WEBAPI_LOGGING_LEVEL_ORG_APACHE_SHIRO",
     options := [lit "trace", lit "debug", lit "info", lit "warn", lit "error"] },
   { key := lit "CACHE_GENERATION_INVALIDAFTERDAYS",
     validationPattern := some (lit "^-1|\\d+$") },
   { key := lit "CACHE_GENERATION_CLEANUPINTERVAL",
     validationPattern := some (lit "^\\d+$") },
   { key := lit "FLYWAY_BASELINE_ON_MIGRATE", options := [lit "true", lit "false"] },
   { key := lit "I18N_ENABLED", options := [lit "true", lit "false"] },
   { key := lit "EXECUTIONENGINE_URL",
     validationPattern := some (lit "^https?:\\/\\/[\\w\\-\\.]+:\\d+\\/.*$") },
   { key := lit "WEBAPI_ADDITIONAL_JDBC_FILE_PATH", isFilePath := true },
   { key := lit "WEBAPI_CACERTS_FILE", isFilePath := true },
   { key := lit "WEBAPI_CDM_SNOWFLAKE_PRIVATE_KEY_FILE", isFilePath := true,
     isSecret := true }]

/-- The issues one iteration of the `WebAPIConfigWidget.validate` loop
appends for a field with the given current text. -/
def webapiFieldIssues (ext : Ext) (f : WField) (value : Str) : List Str :=
  (if value = [] ∧ f.isSecret = false then [f.key ++ lit " is required"] else []) ++
  (match f.validationPattern with
   | some pat =>
       if value ≠ [] ∧ ext.reMatch pat value = false then
         [f.key ++ lit " has invalid format"]
       else []
   | none => []) ++
  (if f.isFilePath = true ∧ value ≠ [] ∧
      ext.pathExists (ext.dirname value) = false then
     [lit "Directory for " ++ f.key ++ lit " does not exist: " ++ ext.dirname value]
   else []) ++
  (if f.key = lit "CACHE_GENERATION_INVALIDAFTERDAYS" then
     match pyInt value with
     | some days =>
         if days < -1 then [lit "Cache invalidation days must be -1 or greater"]
         else []
     | none => [lit "Cache invalidation days must be a number"]
   else if f.key = lit "CACHE_GENERATION_CLEANUPINTERVAL" then
     match pyInt value with
     | some interval =>
         if interval < 1000 then
           [lit "Cache cleanup interval must be at least 1000ms"]
         else []
     | none => [lit "Cache cleanup interval must be a number"]
   else [])

/-- `WebAPIConfigWidget.validate`: iterate the input widgets in insertion
order, concatenating each field's issues. -/
def webapiValidate (ext : Ext) (w : Str → Str) : List Str :=
  webapiFields.flatMap (fun f => webapiFieldIssues ext f (w f.key))

/-! ## Monitoring widget validator (`MonitoringConfigWidget.validate_config`,
`sections.py`)

Unlike every other numeric parse in the file, the `METRICS_PORT` special
check calls `int(value)` outside a `try`, so the embedding returns
`Except`: `Except.error` models an uncaught `ValueError` aborting the
whole pass. -/

/-- Decimal rendering of an integer, as Python `str()` produces. -/
def intToStr (i : Int) : Str :=
  if i < 0 then '-' :: natToStr i.natAbs else natToStr i.natAbs

/-- The `ConfigField` dataclass of the Monitoring block of `sections.py`
(fields relevant to `validate_config`). -/
structure MWField where
  key : Str
  options : List Str := []
  isFilePath : Bool := false
  validationPattern : Option Str := none
  isNumeric : Bool := false
  minValue : Option Int := none
  maxValue : Option Int := none

/-- The Monitoring widget fields in widget order
(`MonitoringConfigWidget.setup_ui`: logging, monitoring, analytics). -/
def mwFields : List MWField :=
  [{ key := lit "LOG_LEVEL",
     options := [lit "DEBUG", lit "INFO", lit "WARN", lit "ERROR"] },
   { key := lit "LOG_FORMAT", options := [lit "json", lit "text", lit "csv"] },
   { key := lit "LOG_PATH", isFilePath := true },
   { key := lit "LOG_RETENTION_DAYS", isNumeric := true, minValue := some 1,
     maxValue := some 365 },
   { key := lit "LOG_MAX_SIZE", isNumeric := true, minValue := some 1,
     maxValue := some 1000 },
   { key := lit "ENABLE_METRICS", options := [lit "true", lit "false"] },
   { key := lit "METRICS_PORT", validationPattern := some (lit "^\\d+$"),
     isNumeric := true, minValue := some 1024, maxValue := some 65535 },
   { key := lit "ENABLE_HEALTH_CHECK", options := [lit "true", lit "false"] },
   { key := lit "HEALTH_CHECK_PATH" },
   { key := lit "ENABLE_TRACING", options := [lit "true", lit "false"] },
   { key := lit "TRACING_SAMPLE_RATE",
     validationPattern := some (lit "^0(\\.\\d+)?|1(\\.0)?$") },
   { key := lit "ENABLE_USAGE_STATS", options := [lit "true", lit "false"] },
   { key := lit "ANALYTICS_DB_PATH", isFilePath := true },
   { key := lit "ANALYTICS_RETENTION_MONTHS", isNumeric := true,
     minValue := some 1, maxValue := some 60 }]

/-- Default widget texts of the Monitoring widget (numeric fields are spin
boxes initialised from the default value; `str(widget.value())` reproduces
the default digit string). -/
def mwDefaultList : List (Str × Str) :=
  [(lit "LOG_LEVEL", lit "INFO"), (lit "LOG_FORMAT", lit "json"),
   (lit "LOG_PATH", lit "./logs"), (lit "LOG_RETENTION_DAYS", lit "30"),
   (lit "LOG_MAX_SIZE", lit "100"), (lit "ENABLE_METRICS", lit "true"),
   (lit "METRICS_PORT", lit "9090"), (lit "ENABLE_HEALTH_CHECK", lit "true"),
   (lit "HEALTH_CHECK_PATH", lit "/health"), (lit "ENABLE_TRACING", lit "false"),
   (lit "TRACING_SAMPLE_RATE", lit "0.1"), (lit "ENABLE_USAGE_STATS", lit "true"),
   (lit "ANALYTICS_DB_PATH", lit "./analytics/db"),
   (lit "ANALYTICS_RETENTION_MONTHS", lit "12")]

/-- Default widget texts as a value function. -/
def mwDefaults (k : Str) : Str := (dictGet mwDefaultList k).getD []

/-- The issues one iteration of `MonitoringConfigWidget.validate_config`
appends for a field; `Except.error` is an uncaught `ValueError`. -/
def mwFieldIssues (ext : Ext) (f : MWField) (value : Str) :
    Except Str (List Str) :=
  let req := if value = [] then [f.key ++ lit " is required"] else []
  let pat :=
    match f.validationPattern with
    | some p =>
        if value ≠ [] ∧ ext.reMatch p value = false then
          [f.key ++ lit " has invalid format"]
        else []
    | none => []
  let filep :=
    if f.isFilePath = true ∧ value ≠ [] ∧
        ext.pathExists (ext.dirname value) = false then
      [lit "Directory for " ++ f.key ++ lit " does not exist: " ++
        ext.dirname value]
    else []
  let num :=
    if f.isNumeric = true ∧ value ≠ [] then
      match pyFloat value with
      | some x =>
          (match f.minValue with
           | some m =>
               if x.ltInt m then [f.key ++ lit " must be at least " ++ intToStr m]
               else []
           | none => []) ++
          (match f.maxValue with
           | some m =>
               if x.gtInt m then
                 [f.key ++ lit " must be no more than " ++ intToStr m]
               else []
           | none => [])
      | none => [f.key ++ lit " must be a number"]
    else []
  let common := req ++ pat ++ filep ++ num
  if f.key = lit "METRICS_PORT" then
    match pyInt value with
    | none => Except.error (lit "ValueError: invalid literal for int() with base 10")
    | some port =>
        Except.ok (common ++
          (if port < 1024 ∨ port > 65535 then
             [lit "Metrics port must be between 1024 and 65535"]
           else []))
  else if f.key = lit "TRACING_SAMPLE_RATE" then
    Except.ok (common ++
      (match pyFloat value with
       | some rate =>
           if rate.ltInt 0 ∨ rate.gtInt 1 then
             [lit "Tracing sample rate must be between 0.0 and 1.0"]
           else []
       | none => [lit "Invalid tracing sample rate"]))
  else Except.ok common

/-- `MonitoringConfigWidget.validate_config`: fold the fields in widget
order, aborting on an uncaught exception. -/
def mwValidate (ext : Ext) (w : Str → Str) : Except Str (List Str) :=
  mwFields.foldlM (fun acc f => (mwFieldIssues ext f (w f.key)).map (acc ++ ·)) []

/-! ## Wizard field model (`new_main.py`)

`ConfigField` dependencies map a field name to either a literal string or
a callable; `update_field_visibility` compares the current value with
`==`, which is `False` whenever the required value is a function object,
and hides and clears the dependent field when the comparison fails.
`get_field_value` returns `""` for hidden fields. -/

/-- The `required_value` of a dependency: a string literal or a callable. -/
inductive DepVal
  | strv (s : Str)
  | callable (f : Str → Bool)

/-- CPython `current_value == required_value`: string equality on strings,
`False` against a function object. -/
def depMatches (v : Str) : DepVal → Bool
  | .strv t => v = t
  | .callable _ => false

/-- The `ConfigField` dataclass of `new_main.py` (fields relevant to
visibility and validation). -/
structure NMField where
  name : Str
  required : Bool := true
  dependsOn : Option (Str × DepVal) := none
  validationFunc : Option (Str → Except Str Bool) := none
  sectionName : Str := []

/-- `ConfigWizard.validate_field`: required check, then the optional
validation function, whose exceptions are caught. -/
def validate_field (f : NMField) (value : Str) : Option Str :=
  if f.required = true ∧ value = [] then some (f.name ++ lit " is required")
  else
    match f.validationFunc with
    | some g =>
        match g value with
        | .ok b => if b = false then some (f.name ++ lit " validation failed") else none
        | .error e => some (f.name ++ lit " validation error: " ++ e)
    | none => none

/-- Steady-state visibility of a field after
`ConfigWizardPage.update_field_visibility` has run for its dependency:
shown iff the dependency value matches. -/
def fieldVisible (w : Str → Str) (f : NMField) : Bool :=
  match f.dependsOn with
  | none => true
  | some (a, dv) => depMatches (w a) dv

/-- `ConfigWizardPage.get_field_value`: hidden fields read as `""`. -/
def get_field_value (w : Str → Str) (f : NMField) : Str :=
  if fieldVisible w f then w f.name else []

/-- `ConfigWizard.validate_page`: collect the non-`None` results of
`validate_field` over the section's fields. -/
def validate_page (w : Str → Str) (fields : List NMField) : List Str :=
  fields.filterMap (fun f => validate_field f (get_field_value w f))

/-- The Security section of `create_sections()` in `new_main.py`: six
fields, two of them gated on a checkbox being `"true"`. -/
def securityNMFields : List NMField :=
  [{ name := lit "ATLAS_SECURITY_PROVIDER_TYPE", sectionName := lit "Security" },
   { name := lit "ATLAS_SECURITY_PROVIDER_NAME", sectionName := lit "Security" },
   { name := lit "SECURITY_AUTH_JDBC_ENABLED", sectionName := lit "Security" },
   { name := lit "SECURITY_DB_DATASOURCE_SCHEMA",
     dependsOn := some (lit "SECURITY_AUTH_JDBC_ENABLED", .strv (lit "true")),
     sectionName := lit "Security" },
   { name := lit "SECURITY_AUTH_LDAP_ENABLED", sectionName := lit "Security" },
   { name := lit "SECURITY_LDAP_URL",
     dependsOn := some (lit "SECURITY_AUTH_LDAP_ENABLED", .strv (lit "true")),
     sectionName := lit "Security" }]

/-! ## Field registration -/

/-- `BaseConfigSection.add_field` (`base_config.py`): create a widget and
execute `self.fields[name] = field` — a plain dictionary assignment.
Widgets are modelled by identifiers. -/
def baseAddField (fields : List (Str × Nat)) (name : Str) (widget : Nat) :
    List (Str × Nat) :=
  dictSet fields name widget

/-- `ConfigSection` of `new_main.py`: a name and an ordered field list. -/
structure NMSection where
  name : Str
  fields : List NMField := []

/-- `ConfigSection.add_field` (`new_main.py`): set `field.section` and
append unconditionally. -/
def nmAddField (s : NMSection) (f : NMField) : NMSection :=
  { s with fields := s.fields ++ [{ f with sectionName := s.name }] }

/-! ## State-passing form of the validators

`validate` methods are translated a second time as state transformers: a
check that only reads the widget state is `readCheck`; `runChecks`
threads the state through the translated statements in order.  This form
makes mutation (or its absence) explicit. -/

/-- Thread a state through a list of checks, concatenating their issues. -/
def runChecks {σ : Type} : List (σ → σ × List Str) → σ → σ × List Str
  | [], s => (s, [])
  | f :: fs, s =>
      let r := f s
      let r' := runChecks fs r.1
      (r'.1, r.2 ++ r'.2)

/-- A check that reads the state and appends issues without writing. -/
def readCheck {σ : Type} (g : σ → List Str) : σ → σ × List Str :=
  fun s => (s, g s)

/-- `MonitoringSection.validate` as a state transformer over the widget
state, statement by statement. -/
def monitoringValidateS : MonValues → MonValues × List Str :=
  runChecks
    [readCheck monEnabledCheck, readCheck monPortCheck,
     readCheck monNumericChecks, readCheck monLogLevelCheck,
     readCheck monEmailCheck, readCheck monSlackCheck]

/-- `WebAPIConfigWidget.validate` as a state transformer over the widget
texts, one check per input widget. -/
def webapiValidateS (ext : Ext) : (Str → Str) → (Str → Str) × List Str :=
  runChecks
    (webapiFields.map (fun f => readCheck (fun w => webapiFieldIssues ext f (w f.key))))

/-! ## Dictionary lemmas -/

/-- Keys after `d[k] = v`: unchanged when `k` was present, else extended. -/
theorem map_fst_dictSet {α : Type} (m : List (Str × α)) (k : Str) (v : α) :
    (dictSet m k v).map Prod.fst =
      if k ∈ m.map Prod.fst then m.map Prod.fst else m.map Prod.fst ++ [k] := by
  induction m with
  | nil => rfl
  | cons p rest ih =>
      obtain ⟨k', v'⟩ := p
      by_cases h : k' = k
      · subst h
        simp only [dictSet, if_true, List.map_cons]
        rw [if_pos (List.mem_cons_self _ _)]
      · simp only [dictSet, if_neg h, List.map_cons, ih]
        have hne : ¬(k = k') := fun hh => h hh.symm
        by_cases hmem : k ∈ rest.map Prod.fst
        · rw [if_pos hmem, if_pos (List.mem_cons_of_mem _ hmem)]
        · rw [if_neg hmem, if_neg (by
            intro hc
            rcases List.mem_cons.mp hc with hc | hc
            · exact hne hc
            · exact hmem hc)]
          rfl

/-- Assignment preserves key uniqueness. -/
theorem nodup_map_fst_dictSet {α : Type} (m : List (Str × α)) (k : Str) (v : α)
    (h : (m.map Prod.fst).Nodup) : ((dictSet m k v).map Prod.fst).Nodup := by
  rw [map_fst_dictSet]
  by_cases hmem : k ∈ m.map Prod.fst
  · simpa [hmem] using h
  · simp only [if_neg hmem]
    simpa [List.nodup_append, hmem] using h

/-- Reading back the key just assigned. -/
theorem dictGet_dictSet {α : Type} (m : List (Str × α)) (k : Str) (v : α) :
    dictGet (dictSet m k v) k = some v := by
  induction m with
  | nil => simp [dictSet, dictGet]
  | cons p rest ih =>
      obtain ⟨k', v'⟩ := p
      by_cases h : k' = k <;> simp [dictSet, dictGet, h, ih]

/-- Assignment of a fresh key appends the entry. -/
theorem dictSet_eq_append {α : Type} (m : List (Str × α)) (k : Str) (v : α)
    (h : k ∉ m.map Prod.fst) : dictSet m k v = m ++ [(k, v)] := by
  induction m with
  | nil => simp [dictSet]
  | cons p rest ih =>
      obtain ⟨k', v'⟩ := p
      simp only [List.map_cons, List.mem_cons] at h
      push_neg at h
      have : ¬(k' = k) := fun hh => h.1 hh.symm
      simp [dictSet, this, ih h.2]

/-- Modifying the key just assigned rewrites its value in place. -/
theorem dictModify_dictSet {α : Type} (m : List (Str × α)) (k : Str) (v : α)
    (f : α → α) : dictModify (dictSet m k v) k f = dictSet m k (f v) := by
  induction m with
  | nil => simp [dictSet, dictModify]
  | cons p rest ih =>
      obtain ⟨k', v'⟩ := p
      by_cases h : k' = k <;> simp [dictSet, dictModify, h, ih]

/-- Folding fresh, pairwise-distinct assignments into a dictionary appends
the entries in order (the general dictionary-rebuild lemma). -/
theorem foldl_dictSet_eq_append {α : Type} (g : Str × α → α) :
    ∀ (xs : List (Str × α)) (acc : List (Str × α)),
      (∀ p ∈ xs, g p = p.2) →
      (∀ p ∈ xs, p.1 ∉ acc.map Prod.fst) →
      (xs.map Prod.fst).Nodup →
      xs.foldl (fun m p => dictSet m p.1 (g p)) acc = acc ++ xs := by
  intro xs
  induction xs with
  | nil => intro acc _ _ _; simp
  | cons p rest ih =>
      intro acc hg hdisj hnd
      obtain ⟨k, v⟩ := p
      simp only [List.foldl_cons]
      have hgp : g (k, v) = v := hg _ (List.mem_cons_self _ _)
      rw [hgp, dictSet_eq_append acc k v (hdisj _ (List.mem_cons_self _ _))]
      simp only [List.map_cons, List.nodup_cons] at hnd
      rw [ih (acc ++ [(k, v)]) (fun q hq => hg q (List.mem_cons_of_mem _ hq))
            (fun q hq => by
              simp only [List.map_append, List.mem_append, List.map_cons,
                List.mem_singleton, List.map_nil]
              push_neg
              refine ⟨fun hin => hdisj q (List.mem_cons_of_mem _ hq) hin, ?_⟩
              intro hqk
              exact hnd.1 (hqk ▸ List.mem_map_of_mem Prod.fst hq))
            hnd.2]
      simp

/-! ## State-threading lemmas -/

/-- Running read-only checks returns the state unchanged and concatenates
the issues each check reads off it. -/
theorem runChecks_readChecks {σ β : Type} (xs : List β) (g : β → σ → List Str)
    (s : σ) :
    runChecks (xs.map (fun x => readCheck (g x))) s =
      (s, xs.flatMap (fun x => g x s)) := by
  induction xs generalizing s with
  | nil => rfl
  | cons x rest ih => simp [runChecks, readCheck, ih]

/-! ## Claim theorems -/

/-- C9: validation does not mutate its input and is deterministic.  The
statement-by-statement state-transformer translations of
`MonitoringSection.validate` (`monitoring_config.py`) and
`WebAPIConfigWidget.validate` (`sections.py`) return the widget state
unchanged, paired with the issue list computed by the corresponding pure
function of the field values alone — so two runs on identical sections
and value maps return the identical ordered issue list. -/
theorem validate_pure :
    (∀ v : MonValues, monitoringValidateS v = (v, monitoringValidate v)) ∧
    (∀ (ext : Ext) (w : Str → Str), webapiValidateS ext w = (w, webapiValidate ext w)) := by
  constructor
  · intro v
    have h := runChecks_readChecks
      [monEnabledCheck, monPortCheck, monNumericChecks, monLogLevelCheck,
       monEmailCheck, monSlackCheck] (fun g => g) v
    simp only [List.map_cons, List.map_nil, List.flatMap_cons, List.flatMap_nil] at h
    unfold monitoringValidateS
    rw [h]
    simp [monitoringValidate, List.append_assoc]
  · intro ext w
    have h := runChecks_readChecks webapiFields
      (fun f wt => webapiFieldIssues ext f (wt f.key)) w
    simpa only [webapiValidateS, webapiValidate] using h

/-- C2 counterexample: validating the Host section with `HOST_PORT` set to
`"70000"` (other fields at their defaults) does not produce the issue
string `"HOST_PORT must be between 0 and 65535"` claimed by the
specification — `BroadseaHostSection.validate` (`host_config.py`) words
its port messages without the field key. -/
theorem host_port_70000_counterexample :
    lit "HOST_PORT must be between 0 and 65535" ∉
      hostValidate { hostDefaults with hostPort := lit "70000" } := by decide

/-- C2 amended: validating the Host section with `HOST_PORT` set to
`"70000"` (other fields at their defaults) yields exactly the issue
`"Port must be between 0 and 65535"` — the bounds 0 and 65535 appear, but
the message does not name the key. -/
theorem host_port_70000_message :
    hostValidate { hostDefaults with hostPort := lit "70000" } =
      [lit "Port must be between 0 and 65535"] := by decide

/-- C5: in `SecuritySection.validate` (`security_config.py`), whenever the
authentication provider reads `oauth`, each of the OAuth client-id,
client-secret and callback-URL fields that is blank produces its
`is required when using OAuth` issue; in particular an empty client id
yields an issue naming `SECURITY_OAUTH_CLIENT_ID`. -/
theorem oauth_required_issues (v : SecValues)
    (h : pyLower v.authProvider = lit "oauth") :
    (pyStrip v.oauthClientId = [] →
      lit "SECURITY_OAUTH_CLIENT_ID is required when using OAuth" ∈ securityValidate v) ∧
    (pyStrip v.oauthClientSecret = [] →
      lit "SECURITY_OAUTH_CLIENT_SECRET is required when using OAuth" ∈ securityValidate v) ∧
    (pyStrip v.oauthCallbackUrl = [] →
      lit "SECURITY_OAUTH_CALLBACK_URL is required when using OAuth" ∈ securityValidate v) := by
  have base : ∀ name val : Str,
      (name, val) ∈ [(lit "SECURITY_OAUTH_CLIENT_ID", v.oauthClientId),
        (lit "SECURITY_OAUTH_CLIENT_SECRET", v.oauthClientSecret),
        (lit "SECURITY_OAUTH_CALLBACK_URL", v.oauthCallbackUrl)] →
      pyStrip val = [] →
      (name ++ lit " is required when using OAuth") ∈ securityValidate v := by
    intro name val hmem hval
    unfold securityValidate
    refine List.mem_append.mpr (Or.inl (List.mem_append.mpr (Or.inr ?_)))
    rw [if_pos h]
    refine List.mem_flatMap.mpr ⟨(name, val), hmem, ?_⟩
    rw [if_pos hval]
    exact List.mem_singleton.mpr rfl
  refine ⟨fun h1 => ?_, fun h2 => ?_, fun h3 => ?_⟩
  · have hm := base (lit "SECURITY_OAUTH_CLIENT_ID") v.oauthClientId
      (List.mem_cons_self _ _) h1
    rwa [show lit "SECURITY_OAUTH_CLIENT_ID" ++ lit " is required when using OAuth" =
      lit "SECURITY_OAUTH_CLIENT_ID is required when using OAuth" from by decide] at hm
  · have hm := base (lit "SECURITY_OAUTH_CLIENT_SECRET") v.oauthClientSecret
      (List.mem_cons_of_mem _ (List.mem_cons_self _ _)) h2
    rwa [show lit "SECURITY_OAUTH_CLIENT_SECRET" ++ lit " is required when using OAuth" =
      lit "SECURITY_OAUTH_CLIENT_SECRET is required when using OAuth" from by decide] at hm
  · have hm := base (lit "SECURITY_OAUTH_CALLBACK_URL") v.oauthCallbackUrl
      (List.mem_cons_of_mem _ (List.mem_cons_of_mem _ (List.mem_cons_self _ _))) h3
    rwa [show lit "SECURITY_OAUTH_CALLBACK_URL" ++ lit " is required when using OAuth" =
      lit "SECURITY_OAUTH_CALLBACK_URL is required when using OAuth" from by decide] at hm

/-- C5 witness: the concrete scenario `AUTH_PROVIDER="oauth"`,
`CLIENT_ID=""` (remaining fields at their defaults). -/
theorem oauth_required_issues_witness :
    lit "SECURITY_OAUTH_CLIENT_ID is required when using OAuth" ∈
      securityValidate { secDefaults with authProvider := lit "oauth" } :=
  (oauth_required_issues { secDefaults with authProvider := lit "oauth" }
    (by decide)).1 (by decide)

/-- C7: the code aborts where the claim (and the specification) promise it
cannot.  `MonitoringConfigWidget.validate_config` (`sections.py`) calls
`int(value)` on `METRICS_PORT` outside any `try`, so a non-numeric value
map — `METRICS_PORT = "abc"`, every other field at its default — raises
an uncaught `ValueError` that aborts the whole validation pass instead of
being reported as an issue, contradicting the isolated-checks contract
the same method follows for `TRACING_SAMPLE_RATE` one branch below. -/
theorem metrics_port_uncaught_valueerror :
    mwValidate extTrivial
        (fun k => if k = lit "METRICS_PORT" then lit "abc" else mwDefaults k) =
      Except.error (lit "ValueError: invalid literal for int() with base 10") := by
  rfl

/-- C8 counterexample: registering a duplicate key does not fail.
`BaseConfigSection.add_field` (`base_config.py`) executes
`self.fields[name] = field`, which silently overwrites the existing
widget, and `ConfigSection.add_field` (`new_main.py`) appends
unconditionally, so a section built by two successful registrations of
the same key holds duplicate keys — no `DuplicateKeyError` exists
anywhere in the repository. -/
theorem add_field_duplicate_counterexample :
    baseAddField (baseAddField [] (lit "HOST_NAME") 1) (lit "HOST_NAME") 2 =
        [(lit "HOST_NAME", 2)] ∧
    ((nmAddField (nmAddField { name := lit "Host" } { name := lit "HOST_PORT" })
        { name := lit "HOST_PORT" }).fields.map NMField.name) =
        [lit "HOST_PORT", lit "HOST_PORT"] ∧
    ¬ ((nmAddField (nmAddField { name := lit "Host" } { name := lit "HOST_PORT" })
        { name := lit "HOST_PORT" }).fields.map NMField.name).Nodup := by
  refine ⟨by decide, by rfl, ?_⟩
  intro h
  rw [show ((nmAddField (nmAddField { name := lit "Host" } { name := lit "HOST_PORT" })
      { name := lit "HOST_PORT" }).fields.map NMField.name) =
      [lit "HOST_PORT", lit "HOST_PORT"] from rfl] at h
  simp at h

/-- C8 amended: registration never fails.  `BaseConfigSection.add_field`
overwrites the entry at an existing key — so its key set stays unique and
the new widget is stored — while `ConfigSection.add_field` in
`new_main.py` appends the field unconditionally, allowing duplicate keys
in that representation. -/
theorem add_field_no_error :
    (∀ (m : List (Str × Nat)) (k : Str) (wdg : Nat),
      (m.map Prod.fst).Nodup →
        ((baseAddField m k wdg).map Prod.fst).Nodup ∧
        dictGet (baseAddField m k wdg) k = some wdg) ∧
    (∀ (s : NMSection) (f : NMField),
      (nmAddField s f).fields = s.fields ++ [{ f with sectionName := s.name }]) := by
  refine ⟨fun m k wdg h => ⟨nodup_map_fst_dictSet m k wdg h, dictGet_dictSet m k wdg⟩,
    fun s f => rfl⟩

/-- A field gated on a string dependency, required, with no validation
function: when the dependency value is not met the field resolves to the
empty string and the required check fires before anything else; when it
is met and the field is empty the required check fires as well. -/
theorem gating_core (B : NMField) (A : Str)
    (hd : B.dependsOn = some (A, DepVal.strv (lit "true")))
    (hreq : B.required = true) (w : Str → Str) :
    (w A = lit "false" →
      validate_field B (get_field_value w B) = some (B.name ++ lit " is required")) ∧
    (w A = lit "true" → w B.name = [] →
      validate_field B (get_field_value w B) = some (B.name ++ lit " is required")) := by
  constructor
  · intro hf
    have hvis : fieldVisible w B = false := by
      unfold fieldVisible
      rw [hd]
      show depMatches (w A) (DepVal.strv (lit "true")) = false
      rw [hf]
      decide
    have hget : get_field_value w B = [] := by
      unfold get_field_value
      simp [hvis]
    rw [hget]
    unfold validate_field
    rw [if_pos ⟨hreq, rfl⟩]
  · intro hf hempty
    have hvis : fieldVisible w B = true := by
      unfold fieldVisible
      rw [hd]
      show depMatches (w A) (DepVal.strv (lit "true")) = true
      rw [hf]
      decide
    have hget : get_field_value w B = w B.name := by
      unfold get_field_value
      simp [hvis]
    rw [hget, hempty]
    unfold validate_field
    rw [if_pos ⟨hreq, rfl⟩]

/-- C4: dependency gating in the Security section of `new_main.py`.  For
every field `B` of the section whose dependency condition is
`(A, "true")`: when `A` currently reads `"false"`, `B` is hidden, its
value resolves to `""`, and `ConfigWizard.validate_field` returns exactly
the required-issue — in particular no domain, range, or pattern issue is
emitted for `B`, regardless of the text stored in `B`'s widget; and when
`A` reads `"true"` and `B` (which is required) is empty, the same
required-issue is returned. -/
theorem dependency_gating (B : NMField) (A : Str)
    (hB : B ∈ securityNMFields)
    (hd : B.dependsOn = some (A, DepVal.strv (lit "true")))
    (w : Str → Str) :
    (w A = lit "false" →
      validate_field B (get_field_value w B) = some (B.name ++ lit " is required")) ∧
    (w A = lit "true" → w B.name = [] →
      validate_field B (get_field_value w B) = some (B.name ++ lit " is required")) := by
  simp only [securityNMFields, List.mem_cons, List.not_mem_nil, or_false] at hB
  rcases hB with rfl | rfl | rfl | rfl | rfl | rfl
  · exact Option.noConfusion hd
  · exact Option.noConfusion hd
  · exact Option.noConfusion hd
  · exact gating_core _ A hd rfl w
  · exact Option.noConfusion hd
  · exact gating_core _ A hd rfl w

/-- C4 witness: `SECURITY_DB_DATASOURCE_SCHEMA` gated on
`SECURITY_AUTH_JDBC_ENABLED = "true"`, with the checkbox off and the
schema widget holding a non-empty text. -/
theorem dependency_gating_witness :
    validate_field (securityNMFields.get ⟨3, by decide⟩)
        (get_field_value
          (fun k => if k = lit "SECURITY_AUTH_JDBC_ENABLED" then lit "false"
                    else lit "webapi_security")
          (securityNMFields.get ⟨3, by decide⟩)) =
      some ((securityNMFields.get ⟨3, by decide⟩).name ++ lit " is required") :=
  (dependency_gating (securityNMFields.get ⟨3, by decide⟩)
    (lit "SECURITY_AUTH_JDBC_ENABLED")
    (List.get_mem securityNMFields 3 (by decide)) rfl
    (fun k => if k = lit "SECURITY_AUTH_JDBC_ENABLED" then lit "false"
              else lit "webapi_security")).1 (by decide)

/-- C6 counterexample: the WebAPI widget field
`CACHE_GENERATION_INVALIDAFTERDAYS` — required (non-secret, and
`WebAPIConfigWidget.validate` treats every non-secret field as required)
with no dependency — produces two issues on the empty value, not exactly
one: its special numeric check runs `int("")` inside a `try` and reports
a second, not-a-number issue alongside the required-issue. -/
theorem required_empty_counterexample :
    webapiFieldIssues extTrivial (webapiFields.get ⟨7, by decide⟩) [] =
      [lit "CACHE_GENERATION_INVALIDAFTERDAYS is required",
       lit "Cache invalidation days must be a number"] := by decide

/-- C6 amended: validating a required, non-secret, non-dependent field on
the empty value always yields the issue `"<key> is required"`; in
`WebAPIConfigWidget.validate` this is the only issue for every field
except the two cache fields, whose special checks also parse the empty
string and add a must-be-a-number issue; `ConfigWizard.validate_field`
(`new_main.py`) returns exactly the single required-issue for every
required field. -/
theorem required_empty_issue :
    (∀ (ext : Ext) (f : WField), f ∈ webapiFields → f.isSecret = false →
      (f.key ++ lit " is required") ∈ webapiFieldIssues ext f [] ∧
      (f.key ≠ lit "CACHE_GENERATION_INVALIDAFTERDAYS" →
        f.key ≠ lit "CACHE_GENERATION_CLEANUPINTERVAL" →
        webapiFieldIssues ext f [] = [f.key ++ lit " is required"])) ∧
    (∀ g : NMField, g.required = true →
      validate_field g [] = some (g.name ++ lit " is required")) := by
  constructor
  · intro ext f _ hs
    constructor
    · unfold webapiFieldIssues
      rw [if_pos ⟨rfl, hs⟩]
      exact List.mem_append.mpr (Or.inl (List.mem_append.mpr (Or.inl
        (List.mem_append.mpr (Or.inl (List.mem_cons_self _ _))))))
    · intro h1 h2
      unfold webapiFieldIssues
      rw [if_pos ⟨rfl, hs⟩, if_neg h1, if_neg h2]
      cases f.validationPattern <;> simp
  · intro g hg
    unfold validate_field
    rw [if_pos ⟨hg, rfl⟩]

/-- C6 witness: the `WEBAPI_DATASOURCE_USERNAME` field (non-secret,
not a cache field) on the empty value, and a concrete required wizard
field on the empty value. -/
theorem required_empty_issue_witness :
    ((webapiFields.get ⟨1, by decide⟩).key ++ lit " is required") ∈
        webapiFieldIssues extTrivial (webapiFields.get ⟨1, by decide⟩) [] ∧
    validate_field { name := lit "BROADSEA_HOST" } [] =
        some (lit "BROADSEA_HOST" ++ lit " is required") :=
  ⟨(required_empty_issue.1 extTrivial (webapiFields.get ⟨1, by decide⟩)
      (List.get_mem webapiFields 1 (by decide)) (by decide)).1,
   required_empty_issue.2 { name := lit "BROADSEA_HOST" } rfl⟩

/-- Behaviour of one `numeric_fields` iteration of
`MonitoringSection.validate` on a digit value out of range, a digit value
in range, and a non-digit value. -/
theorem numericCheck_spec (n : Str) (lo hi : Nat) (u s : Str) :
    (pyIsDigit s = true → ¬(lo ≤ digitsToNat s ∧ digitsToNat s ≤ hi) →
        numericCheck n lo hi u s = [rangeIssueMsg n lo hi u]) ∧
    (pyIsDigit s = true → (lo ≤ digitsToNat s ∧ digitsToNat s ≤ hi) →
        numericCheck n lo hi u s = []) ∧
    (pyIsDigit s = false → numericCheck n lo hi u s = [numberIssueMsg n]) := by
  refine ⟨fun h1 h2 => ?_, fun h1 h2 => ?_, fun h1 => ?_⟩
  · simp [numericCheck, h1, h2]
  · simp [numericCheck, h1, h2]
  · simp [numericCheck, h1]

/-- C3 counterexample: for a range field with lower bound 0, the string
form of `lo - 1` is `"-1"`, which fails the `isdigit()` gate, so
validation emits the not-a-number issue and zero range-violation issues —
not the exactly-one range-violation issue the claim demands.  Shown on
`MONITORING_DISK_THRESHOLD` (bounds `[0, 100]`), other fields at their
defaults. -/
theorem numeric_range_counterexample :
    monitoringValidate (setMonField monDefaults (lit "MONITORING_DISK_THRESHOLD") (lit "-1")) =
        [numberIssueMsg (lit "MONITORING_DISK_THRESHOLD")] ∧
    (monitoringValidate (setMonField monDefaults (lit "MONITORING_DISK_THRESHOLD") (lit "-1"))).count
        (rangeIssueMsg (lit "MONITORING_DISK_THRESHOLD") 0 100 (lit "percent")) = 0 := by
  constructor <;> decide

/-- C3 amended: for every numeric-range field of
`MonitoringSection.validate` (table `numeric_fields`) and for `HOST_PORT`
in `BroadseaHostSection.validate`, with all other fields at their
defaults: a digit value outside `[lo, hi]` (in particular the string form
of `hi + 1`, and of `lo - 1` whenever `lo ≥ 1`) yields exactly one
range-violation issue and no not-a-number issue; a digit value inside
`[lo, hi]` yields no issue at all; and a non-digit value — which is what
the string form of `lo - 1` is when `lo = 0` — yields the not-a-number
issue instead of a range-violation issue. -/
theorem numeric_range_issues :
    (∀ e ∈ monNumericFields, ∀ s : Str,
      (pyIsDigit s = true → ¬(e.2.1 ≤ digitsToNat s ∧ digitsToNat s ≤ e.2.2.1) →
        (monitoringValidate (setMonField monDefaults e.1 s)).count
            (rangeIssueMsg e.1 e.2.1 e.2.2.1 e.2.2.2) = 1 ∧
        (monitoringValidate (setMonField monDefaults e.1 s)).count
            (numberIssueMsg e.1) = 0) ∧
      (pyIsDigit s = true → e.2.1 ≤ digitsToNat s ∧ digitsToNat s ≤ e.2.2.1 →
        monitoringValidate (setMonField monDefaults e.1 s) = []) ∧
      (pyIsDigit s = false →
        (monitoringValidate (setMonField monDefaults e.1 s)).count
            (numberIssueMsg e.1) = 1 ∧
        (monitoringValidate (setMonField monDefaults e.1 s)).count
            (rangeIssueMsg e.1 e.2.1 e.2.2.1 e.2.2.2) = 0)) ∧
    (∀ s : Str,
      (pyIsDigit s = true → 65535 < digitsToNat s →
        hostValidate { hostDefaults with hostPort := s } =
          [lit "Port must be between 0 and 65535"]) ∧
      (pyIsDigit s = true → digitsToNat s ≤ 65535 →
        hostValidate { hostDefaults with hostPort := s } = []) ∧
      (pyIsDigit s = false →
        hostValidate { hostDefaults with hostPort := s } =
          [lit "Port must be a number"])) := by
  constructor
  · intro e he s
    simp only [monNumericFields, List.mem_cons, List.not_mem_nil, or_false] at he
    rcases he with rfl | rfl | rfl | rfl | rfl <;> dsimp only
    · have hred : monitoringValidate (setMonField monDefaults (lit "MONITORING_INTERVAL") s) =
          numericCheck (lit "MONITORING_INTERVAL") 1 3600 (lit "seconds") s := by
        have h0 : monitoringValidate (setMonField monDefaults (lit "MONITORING_INTERVAL") s) =
            ((((numericCheck (lit "MONITORING_INTERVAL") 1 3600 (lit "seconds") s
              ++ []) ++ []) ++ []) ++ []) := rfl
        simpa using h0
      refine ⟨fun h1 h2 => ?_, fun h1 h2 => ?_, fun h1 => ?_⟩
      · rw [hred, (numericCheck_spec _ _ _ _ _).1 h1 h2]
        exact ⟨by decide, by decide⟩
      · rw [hred]
        exact (numericCheck_spec _ _ _ _ _).2.1 h1 h2
      · rw [hred, (numericCheck_spec _ _ _ _ _).2.2 h1]
        exact ⟨by decide, by decide⟩
    · have hred : monitoringValidate (setMonField monDefaults (lit "MONITORING_RETENTION_DAYS") s) =
          numericCheck (lit "MONITORING_RETENTION_DAYS") 1 365 (lit "days") s := by
        have h0 : monitoringValidate (setMonField monDefaults (lit "MONITORING_RETENTION_DAYS") s) =
            ((((numericCheck (lit "MONITORING_RETENTION_DAYS") 1 365 (lit "days") s
              ++ []) ++ []) ++ []) ++ []) := rfl
        simpa using h0
      refine ⟨fun h1 h2 => ?_, fun h1 h2 => ?_, fun h1 => ?_⟩
      · rw [hred, (numericCheck_spec _ _ _ _ _).1 h1 h2]
        exact ⟨by decide, by decide⟩
      · rw [hred]
        exact (numericCheck_spec _ _ _ _ _).2.1 h1 h2
      · rw [hred, (numericCheck_spec _ _ _ _ _).2.2 h1]
        exact ⟨by decide, by decide⟩
    · have hred : monitoringValidate (setMonField monDefaults (lit "MONITORING_DISK_THRESHOLD") s) =
          numericCheck (lit "MONITORING_DISK_THRESHOLD") 0 100 (lit "percent") s := by
        have h0 : monitoringValidate (setMonField monDefaults (lit "MONITORING_DISK_THRESHOLD") s) =
            ((((numericCheck (lit "MONITORING_DISK_THRESHOLD") 0 100 (lit "percent") s
              ++ []) ++ []) ++ []) ++ []) := rfl
        simpa using h0
      refine ⟨fun h1 h2 => ?_, fun h1 h2 => ?_, fun h1 => ?_⟩
      · rw [hred, (numericCheck_spec _ _ _ _ _).1 h1 h2]
        exact ⟨by decide, by decide⟩
      · rw [hred]
        exact (numericCheck_spec _ _ _ _ _).2.1 h1 h2
      · rw [hred, (numericCheck_spec _ _ _ _ _).2.2 h1]
        exact ⟨by decide, by decide⟩
    · have hred : monitoringValidate (setMonField monDefaults (lit "MONITORING_MEMORY_THRESHOLD") s) =
          numericCheck (lit "MONITORING_MEMORY_THRESHOLD") 0 100 (lit "percent") s := by
        have h0 : monitoringValidate (setMonField monDefaults (lit "MONITORING_MEMORY_THRESHOLD") s) =
            ((((numericCheck (lit "MONITORING_MEMORY_THRESHOLD") 0 100 (lit "percent") s
              ++ []) ++ []) ++ []) ++ []) := rfl
        simpa using h0
      refine ⟨fun h1 h2 => ?_, fun h1 h2 => ?_, fun h1 => ?_⟩
      · rw [hred, (numericCheck_spec _ _ _ _ _).1 h1 h2]
        exact ⟨by decide, by decide⟩
      · rw [hred]
        exact (numericCheck_spec _ _ _ _ _).2.1 h1 h2
      · rw [hred, (numericCheck_spec _ _ _ _ _).2.2 h1]
        exact ⟨by decide, by decide⟩
    · have hred : monitoringValidate (setMonField monDefaults (lit "MONITORING_CPU_THRESHOLD") s) =
          numericCheck (lit "MONITORING_CPU_THRESHOLD") 0 100 (lit "percent") s := by
        have h0 : monitoringValidate (setMonField monDefaults (lit "MONITORING_CPU_THRESHOLD") s) =
            ((((numericCheck (lit "MONITORING_CPU_THRESHOLD") 0 100 (lit "percent") s
              ++ []) ++ []) ++ []) ++ []) := rfl
        simpa using h0
      refine ⟨fun h1 h2 => ?_, fun h1 h2 => ?_, fun h1 => ?_⟩
      · rw [hred, (numericCheck_spec _ _ _ _ _).1 h1 h2]
        exact ⟨by decide, by decide⟩
      · rw [hred]
        exact (numericCheck_spec _ _ _ _ _).2.1 h1 h2
      · rw [hred, (numericCheck_spec _ _ _ _ _).2.2 h1]
        exact ⟨by decide, by decide⟩
  · intro s
    have hredH : hostValidate { hostDefaults with hostPort := s } =
        (if !pyIsDigit s then [lit "Port must be a number"]
         else if ¬(0 ≤ (digitsToNat s : Int) ∧ (digitsToNat s : Int) ≤ 65535) then
           [lit "Port must be between 0 and 65535"]
         else []) := by
      have h0 : hostValidate { hostDefaults with hostPort := s } =
          (if !pyIsDigit s then [lit "Port must be a number"]
           else if ¬(0 ≤ (digitsToNat s : Int) ∧ (digitsToNat s : Int) ≤ 65535) then
             [lit "Port must be between 0 and 65535"]
           else []) ++ [] := rfl
      simpa using h0
    refine ⟨fun h1 h2 => ?_, fun h1 h2 => ?_, fun h1 => ?_⟩
    · rw [hredH, if_neg (by simp [h1]), if_pos (by
        rintro ⟨-, hb⟩
        omega)]
    · rw [hredH, if_neg (by simp [h1]), if_neg (by
        intro hc
        exact hc ⟨by omega, by omega⟩)]
    · rw [hredH, if_pos (by simp [h1])]

/-- C3 witness: `MONITORING_INTERVAL` (bounds `[1, 3600]`) at the string
form of `hi + 1`. -/
theorem numeric_range_issues_witness :
    (monitoringValidate (setMonField monDefaults (lit "MONITORING_INTERVAL") (lit "3601"))).count
        (rangeIssueMsg (lit "MONITORING_INTERVAL") 1 3600 (lit "seconds")) = 1 ∧
    (monitoringValidate (setMonField monDefaults (lit "MONITORING_INTERVAL") (lit "3601"))).count
        (numberIssueMsg (lit "MONITORING_INTERVAL")) = 0 :=
  (numeric_range_issues.1 (lit "MONITORING_INTERVAL", 1, 3600, lit "seconds")
    (by decide) (lit "3601")).1 (by decide) (by decide)

/-- C8 witness: re-registering `HOST_NAME` over a one-field registry
succeeds, keeps the keys unique, and stores the new widget. -/
theorem add_field_no_error_witness :
    ((baseAddField [(lit "HOST_NAME", 1)] (lit "HOST_NAME") 2).map Prod.fst).Nodup ∧
    dictGet (baseAddField [(lit "HOST_NAME", 1)] (lit "HOST_NAME") 2)
        (lit "HOST_NAME") = some 2 :=
  add_field_no_error.1 [(lit "HOST_NAME", 1)] (lit "HOST_NAME") 2 (by decide)

/-! ## Python string lemmas for the codec -/

/-- A list whose substring `pat` actually occurs is reported by
`containsSub`. -/
theorem containsSub_of_append (pat x y : Str) :
    containsSub pat (x ++ pat ++ y) = true := by
  induction x with
  | nil =>
      cases pat with
      | nil => cases y <;> simp [containsSub, List.isPrefixOf]
      | cons a t =>
          simp only [List.nil_append, List.cons_append, containsSub, Bool.or_eq_true]
          left
          exact List.isPrefixOf_iff_prefix.mpr ⟨y, by simp⟩
  | cons c cs ih =>
      simp only [List.cons_append, containsSub, Bool.or_eq_true]
      right
      exact ih

/-- `dropWhile` is the identity when the head (if any) fails the predicate. -/
theorem dropWhile_eq_self_of_head {p : Char → Bool} (l : Str)
    (h : ∀ c, l.head? = some c → p c = false) : l.dropWhile p = l := by
  cases l with
  | nil => rfl
  | cons a t => simp [List.dropWhile_cons, h a rfl]

/-- `strip()` is the identity on a string with non-whitespace ends. -/
theorem pyStrip_eq_self_of (l : Str)
    (h1 : ∀ c, l.head? = some c → isPyWs c = false)
    (h2 : ∀ c, l.getLast? = some c → isPyWs c = false) : pyStrip l = l := by
  unfold pyStrip
  rw [dropWhile_eq_self_of_head l h1,
    dropWhile_eq_self_of_head l.reverse
      (fun c hc => h2 c (by rwa [List.head?_reverse] at hc))]
  exact List.reverse_reverse l

/-- Conversely, a fixed point of `dropWhile` has a head failing the
predicate. -/
theorem head_not_of_dropWhile_eq_self {p : Char → Bool} (l : Str)
    (h : l.dropWhile p = l) : ∀ c, l.head? = some c → p c = false := by
  intro c hc
  cases l with
  | nil => simp at hc
  | cons a t =>
      obtain rfl : a = c := by simpa using hc
      by_contra hp
      rw [Bool.not_eq_false] at hp
      rw [List.dropWhile_cons, if_pos hp] at h
      have hlen := congrArg List.length h
      have hle := (t.dropWhile_suffix p).length_le
      simp only [List.length_cons] at hlen
      omega

/-- A fixed point of `strip()` is already a fixed point of the leading
`dropWhile`. -/
theorem dropWhile_of_pyStrip_eq_self (l : Str) (h : pyStrip l = l) :
    l.dropWhile isPyWs = l := by
  have hsuf := l.dropWhile_suffix isPyWs
  apply hsuf.eq_of_length
  have h1 : (pyStrip l).length ≤ (l.dropWhile isPyWs).length := by
    unfold pyStrip
    calc ((l.dropWhile isPyWs).reverse.dropWhile isPyWs).reverse.length
        = ((l.dropWhile isPyWs).reverse.dropWhile isPyWs).length :=
          List.length_reverse _
      _ ≤ (l.dropWhile isPyWs).reverse.length :=
          ((l.dropWhile isPyWs).reverse.dropWhile_suffix isPyWs).length_le
      _ = (l.dropWhile isPyWs).length := List.length_reverse _
  have h2 := hsuf.length_le
  rw [h] at h1
  omega

/-- A fixed point of `strip()` also has whitespace-free trailing end. -/
theorem revdrop_of_pyStrip_eq_self (l : Str) (h : pyStrip l = l) :
    l.reverse.dropWhile isPyWs = l.reverse := by
  have hX := dropWhile_of_pyStrip_eq_self l h
  unfold pyStrip at h
  rw [hX] at h
  have h2 := congrArg List.reverse h
  simpa using h2

/-- The head of a trimmed string is not whitespace. -/
theorem head_of_trimmed (l : Str) (h : pyStrip l = l) :
    ∀ c, l.head? = some c → isPyWs c = false :=
  head_not_of_dropWhile_eq_self l (dropWhile_of_pyStrip_eq_self l h)

/-- The last character of a trimmed string is not whitespace. -/
theorem last_of_trimmed (l : Str) (h : pyStrip l = l) :
    ∀ c, l.getLast? = some c → isPyWs c = false := by
  intro c hc
  exact head_not_of_dropWhile_eq_self l.reverse (revdrop_of_pyStrip_eq_self l h) c
    (by rwa [List.head?_reverse])

/-- `takeWhile` walks through a block that satisfies the predicate. -/
theorem takeWhile_append_all {p : Char → Bool} (a b : Str)
    (h : ∀ x ∈ a, p x = true) : (a ++ b).takeWhile p = a ++ b.takeWhile p := by
  induction a with
  | nil => rfl
  | cons x t ih =>
      simp [List.takeWhile_cons, h x (List.mem_cons_self _ _),
        ih (fun y hy => h y (List.mem_cons_of_mem _ hy))]

/-- `dropWhile` discards a block that satisfies the predicate. -/
theorem dropWhile_append_all {p : Char → Bool} (a b : Str)
    (h : ∀ x ∈ a, p x = true) : (a ++ b).dropWhile p = b.dropWhile p := by
  induction a with
  | nil => rfl
  | cons x t ih =>
      simp [List.dropWhile_cons, h x (List.mem_cons_self _ _),
        ih (fun y hy => h y (List.mem_cons_of_mem _ hy))]

/-- Stripping skips a single leading whitespace character. -/
theorem pyStrip_cons_ws (c : Char) (l : Str) (h : isPyWs c = true) :
    pyStrip (c :: l) = pyStrip l := by
  unfold pyStrip
  rw [List.dropWhile_cons, if_pos h]

/-- `split('=', 1)` on a `KEY=value` line whose key is `=`-free recovers
the key and the value. -/
theorem splitFirstEq_kvLine (k v : Str) (hk : '=' ∉ k) :
    splitFirstEq (kvLine k v) = (k, v) := by
  have hall : ∀ x ∈ k, (fun c => decide (c ≠ '=')) x = true := fun x hx => by
    simp only [decide_eq_true_eq]
    exact fun he => hk (he ▸ hx)
  unfold splitFirstEq kvLine
  rw [takeWhile_append_all _ _ hall, dropWhile_append_all _ _ hall]
  simp [List.takeWhile_cons, List.dropWhile_cons]

/-- `split(':')[-1]` on a header line whose name is colon-free yields the
name with its leading space. -/
theorem afterLastColon_headerLine (n : Str) (hn : ':' ∉ n) :
    afterLastColon (headerLine n) = ' ' :: n := by
  have hall : ∀ x ∈ n.reverse, (fun c => decide (c ≠ ':')) x = true := fun x hx => by
    simp only [decide_eq_true_eq]
    exact fun he => hn (he ▸ (List.mem_reverse.mp hx))
  unfold afterLastColon headerLine
  rw [List.reverse_append, takeWhile_append_all _ _ hall]
  rw [show (lit "# Section: ").reverse.takeWhile (fun c => decide (c ≠ ':')) = [' ']
    from by decide]
  simp

/-! ## `processLine` case analysis -/

/-- The header branch of the decode loop. -/
theorem processLine_eq_header (st : Doc × Option Str) (line : Str)
    (h1 : (pyStrip line).head? = some '#')
    (h2 : containsSub (lit "Section") (pyStrip line) = true) :
    processLine st line =
      (dictSet st.1 (pyStrip (afterLastColon (pyStrip line))) [],
       some (pyStrip (afterLastColon (pyStrip line)))) := by
  simp only [processLine]
  rw [if_pos h1, if_pos h2]

/-- The non-header comment branch: the state is untouched. -/
theorem processLine_eq_comment (st : Doc × Option Str) (line : Str)
    (h1 : (pyStrip line).head? = some '#')
    (h2 : containsSub (lit "Section") (pyStrip line) = false) :
    processLine st line = st := by
  simp only [processLine]
  rw [if_pos h1, if_neg (by simp [h2])]

/-- The ignored-line branch (no `#`, no `=`): the state is untouched. -/
theorem processLine_eq_skip (st : Doc × Option Str) (line : Str)
    (h1 : ¬(pyStrip line).head? = some '#')
    (h2 : '=' ∉ pyStrip line) : processLine st line = st := by
  simp only [processLine]
  rw [if_neg h1, if_neg h2]

/-- The key/value branch with an open, truthy (nonempty-named) section. -/
theorem processLine_eq_kv (m : Doc) (sec : Str) (line : Str)
    (hsec : sec ≠ [])
    (h1 : ¬(pyStrip line).head? = some '#')
    (h2 : '=' ∈ pyStrip line) :
    processLine (m, some sec) line =
      (dictModify m sec (fun kvs =>
        dictSet kvs (pyStrip (splitFirstEq (pyStrip line)).1)
          (pyStrip (splitFirstEq (pyStrip line)).2)), some sec) := by
  simp only [processLine]
  rw [if_neg h1, if_pos h2, if_neg hsec]

/-- A decorative `####…` separator line is ignored. -/
theorem processLine_hashLine (st : Doc × Option Str) :
    processLine st hashLine = st :=
  processLine_eq_comment st hashLine (by decide) (by decide)

/-- A blank line is ignored. -/
theorem processLine_blank (st : Doc × Option Str) :
    processLine st [] = st :=
  processLine_eq_skip st [] (by decide) (by decide)

/-- A header line written for a clean section name opens (resetting) that
very section. -/
theorem processLine_headerLine (st : Doc × Option Str) (n : Str)
    (hn : cleanName n) :
    processLine st (headerLine n) = (dictSet st.1 n [], some n) := by
  obtain ⟨hne0, htrim, hcolon, -⟩ := hn
  cases n with
  | nil => exact absurd rfl hne0
  | cons c t =>
      have hne : (c :: t : Str) ≠ [] := by simp
      have hstrip : pyStrip (headerLine (c :: t)) = headerLine (c :: t) := by
        apply pyStrip_eq_self_of
        · intro d hd
          rw [show (headerLine (c :: t)).head? = some '#' from rfl] at hd
          obtain rfl : '#' = d := by simpa using hd
          decide
        · intro d hd
          rw [show (headerLine (c :: t)).getLast? = (c :: t).getLast? from
            List.getLast?_append_of_ne_nil _ hne] at hd
          exact last_of_trimmed _ htrim d hd
      have hhead : (pyStrip (headerLine (c :: t))).head? = some '#' := by
        rw [hstrip]; rfl
      have hsec : containsSub (lit "Section") (pyStrip (headerLine (c :: t))) = true := by
        rw [hstrip]
        show containsSub (lit "Section")
          ((lit "# ") ++ (lit "Section") ++ ((lit ": ") ++ (c :: t))) = true
        exact containsSub_of_append _ _ _
      have h := processLine_eq_header st (headerLine (c :: t)) hhead hsec
      rw [hstrip, afterLastColon_headerLine _ hcolon,
        pyStrip_cons_ws ' ' _ (by decide), htrim] at h
      exact h

/-- A `KEY=value` line written for a clean key and value stores exactly
that pair in the open section. -/
theorem processLine_kvLine (m : Doc) (sec : Str) (k v : Str)
    (hsec : sec ≠ []) (hk : cleanKey k) (hv : cleanVal v) :
    processLine (m, some sec) (kvLine k v) =
      (dictModify m sec (fun kvs => dictSet kvs k v), some sec) := by
  obtain ⟨hkt, hkeq, -, hkhash⟩ := hk
  obtain ⟨hvt, -⟩ := hv
  have hstrip : pyStrip (kvLine k v) = kvLine k v := by
    apply pyStrip_eq_self_of
    · intro d hd
      cases k with
      | nil =>
          rw [show (kvLine [] v).head? = some '=' from rfl] at hd
          obtain rfl : '=' = d := by simpa using hd
          decide
      | cons a t =>
          rw [show (kvLine (a :: t) v).head? = some a from rfl] at hd
          obtain rfl : a = d := by simpa using hd
          exact head_of_trimmed _ hkt a rfl
    · intro d hd
      by_cases hv0 : v = []
      · subst hv0
        have hlast : (kvLine k []).getLast? = some '=' := by
          unfold kvLine
          rw [List.getLast?_append_of_ne_nil _ (by simp)]
          rfl
        rw [hlast] at hd
        obtain rfl : '=' = d := by simpa using hd
        decide
      · have hlast : (kvLine k v).getLast? = v.getLast? := by
          unfold kvLine
          rw [List.getLast?_append_of_ne_nil _ (by simp),
            show ('=' :: v : Str) = ['='] ++ v from rfl,
            List.getLast?_append_of_ne_nil _ hv0]
        rw [hlast] at hd
        exact last_of_trimmed v hvt d hd
  have hhead : ¬(pyStrip (kvLine k v)).head? = some '#' := by
    rw [hstrip]
    cases k with
    | nil =>
        rw [show (kvLine [] v).head? = some '=' from rfl]
        decide
    | cons a t =>
        rw [show (kvLine (a :: t) v).head? = some a from rfl]
        intro hc
        obtain rfl : a = '#' := by simpa using hc
        exact hkhash rfl
  have hmem : '=' ∈ pyStrip (kvLine k v) := by
    rw [hstrip]
    unfold kvLine
    exact List.mem_append_right _ (List.mem_cons_self _ _)
  have h := processLine_eq_kv m sec (kvLine k v) hsec hhead hmem
  rw [hstrip, splitFirstEq_kvLine k v hkeq] at h
  simpa [hkt, hvt] using h

/-! ## Decoding whole encoded blocks -/

/-- Decoding the `KEY=value` lines of a section accumulates exactly the
written pairs into the open section. -/
theorem foldl_process_kvLines (sec : Str) (kvs : List (Str × Str))
    (hsec : sec ≠ []) :
    ∀ (m : Doc) (acc : List (Str × Str)),
      (∀ p ∈ kvs, cleanKey p.1 ∧ cleanVal p.2) →
      (kvs.map (fun p => kvLine p.1 p.2)).foldl processLine
          (dictSet m sec acc, some sec) =
        (dictSet m sec (kvs.foldl (fun a p => dictSet a p.1 p.2) acc), some sec) := by
  induction kvs with
  | nil => intro m acc _; rfl
  | cons p rest ih =>
      intro m acc hcl
      obtain ⟨k, v⟩ := p
      simp only [List.map_cons, List.foldl_cons]
      rw [processLine_kvLine (dictSet m sec acc) sec k v hsec
          (hcl _ (List.mem_cons_self _ _)).1 (hcl _ (List.mem_cons_self _ _)).2,
        dictModify_dictSet]
      exact ih m (dictSet acc k v) (fun q hq => hcl q (List.mem_cons_of_mem _ hq))

/-- Decoding the whole encoded block of one section sets that section to
the fold of its written pairs. -/
theorem foldl_process_sectionLines (n : Str) (kvs : List (Str × Str))
    (st : Doc × Option Str) (hn : cleanName n)
    (hcl : ∀ p ∈ kvs, cleanKey p.1 ∧ cleanVal p.2) :
    (sectionLines n kvs).foldl processLine st =
      (dictSet st.1 n (kvs.foldl (fun a p => dictSet a p.1 p.2) []), some n) := by
  unfold sectionLines
  rw [List.foldl_append, List.foldl_append]
  simp only [List.foldl_cons, List.foldl_nil]
  rw [processLine_hashLine st, processLine_headerLine st n hn, processLine_hashLine,
    processLine_blank, processLine_blank,
    foldl_process_kvLines n kvs hn.1 st.1 [] hcl]

/-- Decoding an encoded document folds each section's rebuilt map into the
accumulator, in document order. -/
theorem foldl_process_save (doc : Doc) :
    ∀ (st : Doc × Option Str),
      (∀ s ∈ doc, cleanName s.1) →
      (∀ s ∈ doc, ∀ p ∈ s.2, cleanKey p.1 ∧ cleanVal p.2) →
      ((save_config doc).foldl processLine st).1 =
        doc.foldl
          (fun acc s => dictSet acc s.1 (s.2.foldl (fun a p => dictSet a p.1 p.2) []))
          st.1 := by
  induction doc with
  | nil => intro st _ _; rfl
  | cons sct rest ih =>
      intro st hn hcl
      obtain ⟨n, kvs⟩ := sct
      show ((sectionLines n kvs ++ save_config rest).foldl processLine st).1 = _
      rw [List.foldl_append,
        foldl_process_sectionLines n kvs st (hn _ (List.mem_cons_self _ _))
          (hcl _ (List.mem_cons_self _ _)),
        List.foldl_cons]
      exact ih _ (fun s hs => hn s (List.mem_cons_of_mem _ hs))
        (fun s hs => hcl s (List.mem_cons_of_mem _ hs))

/-- C1 counterexample: the round-trip contract fails as universally
stated, on two documents whose values are free of newlines and of
leading/trailing whitespace.  `{Host: {"FOO=bar": "baz"}}` encodes to
the line `FOO=bar=baz`, which decode splits on the first `=` into
`{Host: {"FOO": "bar=baz"}}`; and for the empty section name, the
decoder's `if current_section:` truthiness guard skips every following
`KEY=value` line, so `{"": {"K": "v"}}` decodes back to `{"": {}}`. -/
theorem load_save_roundtrip_counterexample :
    (load_config (save_config [(lit "Host", [(lit "FOO=bar", lit "baz")])]) ≠
        [(lit "Host", [(lit "FOO=bar", lit "baz")])] ∧
      load_config (save_config [(lit "Host", [(lit "FOO=bar", lit "baz")])]) =
        [(lit "Host", [(lit "FOO", lit "bar=baz")])]) ∧
    (load_config (save_config [([], [(lit "K", lit "v")])]) ≠
        [([], [(lit "K", lit "v")])] ∧
      load_config (save_config [([], [(lit "K", lit "v")])]) = [([], [])]) := by
  refine ⟨⟨?_, ?_⟩, ?_, ?_⟩ <;> decide

/-- C1 amended: `load_config ∘ save_config` is the identity on documents
whose section names are pairwise distinct, nonempty, trimmed, colon- and
newline-free; whose keys are unique per section, trimmed, free of `=` and
newline and not starting with `#`; and whose values are trimmed and
newline-free.  (The claim's hypothesis constrained only the values; a key
containing `=` breaks the round trip, as does the empty section name,
whose pairs the decoder's truthiness guard drops — both shown in the
counterexample.) -/
theorem load_save_roundtrip (doc : Doc)
    (hnames : (doc.map Prod.fst).Nodup)
    (hn : ∀ s ∈ doc, cleanName s.1)
    (hkeys : ∀ s ∈ doc, (s.2.map Prod.fst).Nodup)
    (hcl : ∀ s ∈ doc, ∀ p ∈ s.2, cleanKey p.1 ∧ cleanVal p.2) :
    load_config (save_config doc) = doc := by
  unfold load_config
  rw [foldl_process_save doc ([], none) hn hcl]
  have hinner : ∀ s, s ∈ doc →
      (fun s : Str × List (Str × Str) =>
        s.2.foldl (fun a p => dictSet a p.1 p.2) []) s = s.2 := by
    intro s hs
    have h := foldl_dictSet_eq_append (g := Prod.snd) s.2 []
      (fun p _ => rfl) (by simp) (hkeys s hs)
    simpa using h
  have h := foldl_dictSet_eq_append
    (g := fun s : Str × List (Str × Str) =>
      s.2.foldl (fun a p => dictSet a p.1 p.2) [])
    doc [] hinner (by simp) hnames
  simpa using h

/-- C1 witness: the spec's concrete scenario 1 — the one-section document
`{Host: {HOST_PORT: "8080"}}` round-trips. -/
theorem load_save_roundtrip_witness :
    load_config (save_config [(lit "Host", [(lit "HOST_PORT", lit "8080")])]) =
      [(lit "Host", [(lit "HOST_PORT", lit "8080")])] :=
  load_save_roundtrip [(lit "Host", [(lit "HOST_PORT", lit "8080")])]
    (by decide) (by decide) (by decide) (by decide)

/-- Decoding a run of non-header lines under an open section accumulates
their pairs into that section and touches nothing else. -/
theorem foldl_process_noheader (n : Str) (q : List Str) (hn0 : n ≠ []) :
    ∀ (m : Doc) (acc : List (Str × Str)),
      (∀ l ∈ q, isHeaderL l = false) →
      q.foldl processLine (dictSet m n acc, some n) =
        (dictSet m n (collectKVs acc q), some n) := by
  induction q with
  | nil => intro m acc _; rfl
  | cons line rest ih =>
      intro m acc hq
      have hline := hq line (List.mem_cons_self _ _)
      unfold isHeaderL at hline
      rw [List.foldl_cons]
      by_cases hh : (pyStrip line).head? = some '#'
      · have hc : containsSub (lit "Section") (pyStrip line) = false := by
          rw [decide_eq_true hh, Bool.true_and] at hline
          exact hline
        rw [processLine_eq_comment _ _ hh hc]
        have hkv : lineKV line = none := by
          unfold lineKV
          rw [if_pos hh]
        rw [show collectKVs acc (line :: rest) = collectKVs acc rest from by
          simp only [collectKVs, List.foldl_cons, hkv]]
        exact ih m acc (fun l hl => hq l (List.mem_cons_of_mem _ hl))
      · by_cases he : '=' ∈ pyStrip line
        · rw [processLine_eq_kv (dictSet m n acc) n line hn0 hh he, dictModify_dictSet]
          have hkv : lineKV line =
              some (pyStrip (splitFirstEq (pyStrip line)).1,
                pyStrip (splitFirstEq (pyStrip line)).2) := by
            unfold lineKV
            rw [if_neg hh, if_pos he]
          rw [show collectKVs acc (line :: rest) =
              collectKVs (dictSet acc (pyStrip (splitFirstEq (pyStrip line)).1)
                (pyStrip (splitFirstEq (pyStrip line)).2)) rest from by
            simp only [collectKVs, List.foldl_cons, hkv]]
          exact ih m _ (fun l hl => hq l (List.mem_cons_of_mem _ hl))
        · rw [processLine_eq_skip _ _ hh he]
          have hkv : lineKV line = none := by
            unfold lineKV
            rw [if_neg hh, if_neg he]
          rw [show collectKVs acc (line :: rest) = collectKVs acc rest from by
            simp only [collectKVs, List.foldl_cons, hkv]]
          exact ih m acc (fun l hl => hq l (List.mem_cons_of_mem _ hl))

/-- C10: every section-header line resets its section to empty.  For any
prefix `p`, decoding `p ++ [header n] ++ q` — where the clean (in
particular nonempty) name `n`'s header is the last header of the input —
leaves section `n` holding exactly the pairs collected from the lines
after that header.  Whatever `p` accumulated under an earlier
identically-named header is discarded; the result for `n` is independent
of `p`. -/
theorem header_resets_section (p q : List Str) (n : Str)
    (hn : cleanName n) (hq : ∀ l ∈ q, isHeaderL l = false) :
    dictGet (load_config (p ++ headerLine n :: q)) n = some (collectKVs [] q) := by
  unfold load_config
  rw [List.foldl_append, List.foldl_cons, processLine_headerLine _ n hn,
    foldl_process_noheader n q hn.1 _ [] hq]
  exact dictGet_dictSet _ n _

/-- C10 witness: the input holds two `Host` headers, with `A=1` under the
first and `B=2` under the second; the decoded `Host` section holds only
`B=2`. -/
theorem header_resets_section_witness :
    dictGet (load_config ([headerLine (lit "Host"), lit "A=1"] ++
        headerLine (lit "Host") :: [lit "B=2"])) (lit "Host") =
      some [(lit "B", lit "2")] := by
  have h := header_resets_section [headerLine (lit "Host"), lit "A=1"]
    [lit "B=2"] (lit "Host") (by decide) (by decide)
  rwa [show collectKVs [] [lit "B=2"] = [(lit "B", lit "2")] from by decide] at h

end Parthenon
